import Mathlib

/-!
Shallow embedding of the transform kernel of the `pathtracing` repository
(`src/core/vector3.rs`, `src/core/transform.rs`, `src/lib.rs`), together
with proofs about it.

The program's scalar type `Float` is `f32` (`pub type Float = f32` in
`lib.rs`).  Two interpretations of `f32` are used:

* an idealized real-number interpretation `Float := ℝ` for the algebraic
  and geometric statements: every numeric value those statements touch is
  exactly representable in `f32` and the computations involved incur no
  rounding there, so the idealization is faithful for them;
* an IEEE-754-style interpretation `FP` (an exact finite value, `NaN`, or
  `±∞`; rounding and signed zero are not modelled because no operation
  considered under this interpretation rounds or produces a negative
  zero).  This is used for the statements about `NaN` production and about
  totality of zero-vector normalization, where the real model's `x / 0 = 0`
  convention would be unfaithful to `f32`.

`src/core/matrix4x4.rs` is not among the provided source files; the
`Matrix4x4f` definitions below are modelled from the specification's
description of it and are marked as such.
-/

namespace Pathtrace

open Classical

/-- The program's floating point scalar, `pub type Float = f32` (`lib.rs`),
idealized as the real numbers. -/
abbrev Float : Type := ℝ

/-- `Vector3<T>` from `src/core/vector3.rs`: three public fields `x, y, z`
of the scalar type `T`.  A value type with no further invariants. -/
@[ext]
structure Vector3 (T : Type) where
  x : T
  y : T
  z : T

/-- `Vector3::new(initial)`: all three components set to `initial`. -/
def Vector3.new {T : Type} (initial : T) : Vector3 T :=
  { x := initial, y := initial, z := initial }

/-- `Vector3::new_xyz(x, y, z)`: explicit construction. -/
def Vector3.new_xyz {T : Type} (x y z : T) : Vector3 T :=
  { x := x, y := y, z := z }

/-- `impl Sub for Vector3<T>`: component-wise subtraction. -/
instance {T : Type} [Sub T] : Sub (Vector3 T) :=
  ⟨fun a b => Vector3.new_xyz (a.x - b.x) (a.y - b.y) (a.z - b.z)⟩

/-- `impl Add for Vector3<T>`: component-wise addition. -/
instance {T : Type} [Add T] : Add (Vector3 T) :=
  ⟨fun a b => Vector3.new_xyz (a.x + b.x) (a.y + b.y) (a.z + b.z)⟩

/-- `impl DivAssign<T> for Vector3<T>`: the in-place `v /= op` is modelled
as returning the updated value. -/
def Vector3.div_assign {T : Type} [Div T] (v : Vector3 T) (op : T) : Vector3 T :=
  { x := v.x / op, y := v.y / op, z := v.z / op }

/-- `Vector3f` from `src/core/vector3.rs`. -/
abbrev Vector3f := Vector3 Float

/-- `Vector3f::len_squared`: `x*x + y*y + z*z`. -/
def Vector3.len_squared (v : Vector3f) : Float :=
  v.x * v.x + v.y * v.y + v.z * v.z

/-- `Vector3f::len`: `len_squared().sqrt()`; `f32::sqrt` is idealized as
`Real.sqrt`. -/
noncomputable def Vector3.len (v : Vector3f) : Float :=
  Real.sqrt v.len_squared

/-- `Vector3f::dot`: `x*x' + y*y' + z*z'`. -/
def Vector3.dot (v op : Vector3f) : Float :=
  v.x * op.x + v.y * op.y + v.z * op.z

/-- `Vector3f::norm_in`, translated exactly as written in the source: when
`len == 0.0` the vector is first overwritten with the all-zero vector, and
then — the guard does not return early — the vector is divided by `len`
regardless. -/
noncomputable def Vector3.norm_in (v : Vector3f) : Vector3f :=
  let len := v.len
  let v1 := if len = 0.0 then Vector3.new 0.0 else v
  v1.div_assign len

/-- `Vector3f::norm`: normalized copy via `norm_in` on a clone. -/
noncomputable def Vector3.norm (v : Vector3f) : Vector3f :=
  v.norm_in

/-- `Vector3f::cross`: the 3D cross product as written in the source. -/
def Vector3.cross (v op : Vector3f) : Vector3f :=
  Vector3.new_xyz
    (v.y * op.z - v.z * op.y)
    (v.z * op.x - v.x * op.z)
    (v.x * op.y - v.y * op.x)

/-- Modelled from the spec: `Matrix4x4<T>` lives in `src/core/matrix4x4.rs`,
which is absent from the provided sources.  Spec §3/§4.2 fix its data model:
"16 scalars arranged as 4 rows × 4 columns, row-major semantic indexing
m[row][col]".  Field `mIJ` holds the entry `m[I][J]` at row `I`, column `J`,
at the floating scalar type. -/
structure Matrix4x4f where
  m00 : Float
  m01 : Float
  m02 : Float
  m03 : Float
  m10 : Float
  m11 : Float
  m12 : Float
  m13 : Float
  m20 : Float
  m21 : Float
  m22 : Float
  m23 : Float
  m30 : Float
  m31 : Float
  m32 : Float
  m33 : Float

/-- Modelled from the spec: `Matrix4x4::new(m00..m33)` — "construct from 16
scalars in row-major order" (spec §4.2). -/
def Matrix4x4f.new
    (a00 a01 a02 a03 a10 a11 a12 a13 a20 a21 a22 a23 a30 a31 a32 a33 : Float) :
    Matrix4x4f :=
  { m00 := a00, m01 := a01, m02 := a02, m03 := a03,
    m10 := a10, m11 := a11, m12 := a12, m13 := a13,
    m20 := a20, m21 := a21, m22 := a22, m23 := a23,
    m30 := a30, m31 := a31, m32 := a32, m33 := a33 }

/-- Modelled from the spec: `Matrix4x4::new_ident(diag)` — "identity-shaped
matrix with diag on the main diagonal and zero elsewhere" (spec §4.2). -/
def Matrix4x4f.new_ident (diag : Float) : Matrix4x4f :=
  Matrix4x4f.new
    diag 0.0 0.0 0.0
    0.0 diag 0.0 0.0
    0.0 0.0 diag 0.0
    0.0 0.0 0.0 diag

/-- `Transform` from `src/core/transform.rs`: wraps one `Matrix4x4f`. -/
structure Transform where
  m : Matrix4x4f

/-- `Transform::new()`: the identity transform. -/
def Transform.new : Transform :=
  { m := Matrix4x4f.new_ident 1.0 }

/-- `Transform::eval_point`, translated exactly as written: homogeneous
point evaluation with a perspective divide performed when `w != 1.0`. -/
noncomputable def Transform.eval_point (t : Transform) (p : Vector3f) : Vector3f :=
  let m := t.m
  let x := m.m00 * p.x + m.m01 * p.y + m.m02 * p.z + m.m03
  let y := m.m10 * p.x + m.m11 * p.y + m.m12 * p.z + m.m13
  let z := m.m20 * p.x + m.m21 * p.y + m.m22 * p.z + m.m23
  let w := m.m30 * p.x + m.m31 * p.y + m.m32 * p.z + m.m33
  let out := Vector3.new_xyz x y z
  if w ≠ 1.0 then out.div_assign w else out

/-- `Transform::eval_vector`, translated exactly as written: applies the
first three entries of the first three rows, with no fourth-column term and
no divide. -/
def Transform.eval_vector (t : Transform) (v : Vector3f) : Vector3f :=
  let m := t.m
  let x := m.m00 * v.x + m.m01 * v.y + m.m02 * v.z
  let y := m.m10 * v.x + m.m11 * v.y + m.m12 * v.z
  let z := m.m20 * v.x + m.m21 * v.y + m.m22 * v.z
  Vector3.new_xyz x y z

/-- `Transform::new_translate(x, y, z)`. -/
def Transform.new_translate (x y z : Float) : Transform :=
  { m := Matrix4x4f.new
      1.0 0.0 0.0 x
      0.0 1.0 0.0 y
      0.0 0.0 1.0 z
      0.0 0.0 0.0 1.0 }

/-- `Transform::new_scale(x, y, z)`. -/
def Transform.new_scale (x y z : Float) : Transform :=
  { m := Matrix4x4f.new
      x 0.0 0.0 0.0
      0.0 y 0.0 0.0
      0.0 0.0 z 0.0
      0.0 0.0 0.0 1.0 }

/-- `f32::to_radians`: multiplication by π/180. -/
noncomputable def Float.to_radians (x : Float) : Float :=
  x * (Real.pi / 180)

/-- `Transform::new_rotate_x(theta)` (theta in degrees). -/
noncomputable def Transform.new_rotate_x (theta : Float) : Transform :=
  let theta := Float.to_radians theta
  let cost := Real.cos theta
  let sint := Real.sin theta
  { m := Matrix4x4f.new
      1.0 0.0 0.0 0.0
      0.0 cost (-sint) 0.0
      0.0 sint cost 0.0
      0.0 0.0 0.0 1.0 }

/-- `Transform::new_rotate_y(theta)` (theta in degrees). -/
noncomputable def Transform.new_rotate_y (theta : Float) : Transform :=
  let theta := Float.to_radians theta
  let cost := Real.cos theta
  let sint := Real.sin theta
  { m := Matrix4x4f.new
      cost 0.0 sint 0.0
      0.0 1.0 0.0 0.0
      (-sint) 0.0 cost 0.0
      0.0 0.0 0.0 1.0 }

/-- `Transform::new_rotate_z(theta)` (theta in degrees), translated exactly
as written in the source — including the constant `1.1` at row 2, column 2
where a mathematical rotation about z would have `1.0`. -/
noncomputable def Transform.new_rotate_z (theta : Float) : Transform :=
  let theta := Float.to_radians theta
  let cost := Real.cos theta
  let sint := Real.sin theta
  { m := Matrix4x4f.new
      cost (-sint) 0.0 0.0
      sint cost 0.0 0.0
      0.0 0.0 1.1 0.0
      0.0 0.0 0.0 1.0 }

/-- `Transform::new_look_at(pos, look, up)`, translated exactly as written:
`dir = (look - pos).norm()`, `right = up.norm().cross(dir).norm()`,
`newup = dir.cross(right)`, written into the matrix row by row. -/
noncomputable def Transform.new_look_at (pos look up : Vector3f) : Transform :=
  let dir := (look - pos).norm
  let right := (up.norm.cross dir).norm
  let newup := dir.cross right
  { m := Matrix4x4f.new
      right.x newup.x dir.x pos.x
      right.y newup.y dir.y pos.y
      right.z newup.z dir.z pos.z
      0.0 0.0 0.0 1.0 }

/-! IEEE-754-style interpretation of the `f32` scalar, used for the
statements about `NaN` production and panic-freedom of `norm_in`.  A value
is an exact finite real, `NaN`, `+∞` or `-∞`.  Rounding and the negative
zero are not modelled: no computation examined under this interpretation
rounds or produces a `-0.0`. -/
inductive FP where
  | fin (v : ℝ)
  | nan
  | pinf
  | ninf

/-- IEEE-754 addition on the `FP` interpretation ( `NaN` propagates,
`+∞ + -∞ = NaN`). -/
def FP.add : FP → FP → FP
  | nan, _ => nan
  | _, nan => nan
  | pinf, ninf => nan
  | ninf, pinf => nan
  | pinf, _ => pinf
  | _, pinf => pinf
  | ninf, _ => ninf
  | _, ninf => ninf
  | fin a, fin b => fin (a + b)

/-- IEEE-754 multiplication on the `FP` interpretation (exact on finite
values, `NaN` propagates, `0 * ∞ = NaN`). -/
noncomputable def FP.mul : FP → FP → FP
  | nan, _ => nan
  | _, nan => nan
  | pinf, pinf => pinf
  | pinf, ninf => ninf
  | ninf, pinf => ninf
  | ninf, ninf => pinf
  | pinf, fin b => if b = 0 then nan else if 0 < b then pinf else ninf
  | fin a, pinf => if a = 0 then nan else if 0 < a then pinf else ninf
  | ninf, fin b => if b = 0 then nan else if 0 < b then ninf else pinf
  | fin a, ninf => if a = 0 then nan else if 0 < a then ninf else pinf
  | fin a, fin b => fin (a * b)

/-- IEEE-754 division on the `FP` interpretation: `0.0 / 0.0 = NaN`,
`x / 0.0 = ±∞` for finite nonzero `x`, `NaN` propagates, `∞ / ∞ = NaN`,
finite over infinite is zero.  Division never traps. -/
noncomputable def FP.div : FP → FP → FP
  | nan, _ => nan
  | _, nan => nan
  | pinf, pinf => nan
  | pinf, ninf => nan
  | ninf, pinf => nan
  | ninf, ninf => nan
  | fin _, pinf => fin 0
  | fin _, ninf => fin 0
  | pinf, fin b => if 0 ≤ b then pinf else ninf
  | ninf, fin b => if 0 ≤ b then ninf else pinf
  | fin a, fin b =>
      if b = 0 then
        if a = 0 then nan
        else if 0 < a then pinf else ninf
      else fin (a / b)

/-- IEEE-754 square root on the `FP` interpretation: `NaN` on negative
input, exact (`Real.sqrt`) otherwise. -/
noncomputable def FP.sqrt : FP → FP
  | nan => nan
  | pinf => pinf
  | ninf => nan
  | fin a => if a < 0 then nan else fin (Real.sqrt a)

/-- IEEE-754 equality `==` on the `FP` interpretation: `NaN` compares
unequal to everything, including itself. -/
def FP.ieeeEq : FP → FP → Prop
  | fin a, fin b => a = b
  | pinf, pinf => True
  | ninf, ninf => True
  | _, _ => False

/-- Whether a scalar of the `FP` interpretation is a `NaN`. -/
def FP.isNaN : FP → Prop
  | nan => True
  | _ => False

/-- `Vector3f::len_squared` under the `FP` interpretation (same source
expression `x*x + y*y + z*z`, Rust `+` associating to the left). -/
noncomputable def Vector3.len_squaredFP (v : Vector3 FP) : FP :=
  ((v.x.mul v.x).add (v.y.mul v.y)).add (v.z.mul v.z)

/-- `Vector3f::len` under the `FP` interpretation. -/
noncomputable def Vector3.lenFP (v : Vector3 FP) : FP :=
  v.len_squaredFP.sqrt

/-- `Vector3f::norm_in` under the `FP` interpretation, translated exactly as
written in the source: when `len == 0.0` the vector is first overwritten
with the all-zero vector, and then — the guard does not return early — each
component is divided by `len` regardless. -/
noncomputable def Vector3.norm_inFP (v : Vector3 FP) : Vector3 FP :=
  let len := v.lenFP
  let v1 := if FP.ieeeEq len (FP.fin 0.0) then Vector3.new (FP.fin 0.0) else v
  { x := v1.x.div len, y := v1.y.div len, z := v1.z.div len }

/-- `Vector3f::norm` under the `FP` interpretation. -/
noncomputable def Vector3.normFP (v : Vector3 FP) : Vector3 FP :=
  v.norm_inFP

/-- The panic-aware embedding of the division `f32 / f32` used by
`DivAssign`.  Rust `f32` arithmetic follows IEEE-754: division — including
division by zero — produces a value (`±∞` or `NaN`) and never panics, so
the operation always returns `Except.ok`.  An operation that could abort
the program would be modelled with an `Except.error` branch here. -/
noncomputable def FP.div_run (a b : FP) : Except String FP :=
  Except.ok (a.div b)

/-- `Vector3f::norm_in` in the panic-aware embedding: every fallible step
(the three component divisions of `DivAssign`) is sequenced through
`Except`, so a panic anywhere would surface as `Except.error`. -/
noncomputable def Vector3.norm_in_runFP (v : Vector3 FP) : Except String (Vector3 FP) := do
  let len := v.lenFP
  let v1 := if FP.ieeeEq len (FP.fin 0.0) then Vector3.new (FP.fin 0.0) else v
  let x ← FP.div_run v1.x len
  let y ← FP.div_run v1.y len
  let z ← FP.div_run v1.z len
  return { x := x, y := y, z := z }

/-! Claim theorems. -/

/-- Claim C10: the dot product is exactly symmetric — for all `Vector3f`
`a` and `b`, `a.dot(&b) == b.dot(&a)`.  Both sides compute
`x*x' + y*y' + z*z'` with the factors of each multiplication swapped; in
the exact model the two sides are equal, and in IEEE-754 arithmetic the
swap is bit-identical as well, so the idealization is faithful. -/
theorem C10_dot_symmetric (a b : Vector3f) : a.dot b = b.dot a := by
  unfold Vector3.dot
  ring

/-- Claim C8: the cross product is anti-commutative — for all `Vector3f`
`a` and `b`, `a.cross(&b)` equals the component-wise negation of
`b.cross(&a)`. -/
theorem C8_cross_anticommutative (a b : Vector3f) :
    a.cross b =
      Vector3.new_xyz (-(b.cross a).x) (-(b.cross a).y) (-(b.cross a).z) := by
  unfold Vector3.cross Vector3.new_xyz
  refine Vector3.ext ?_ ?_ ?_ <;> dsimp <;> ring

/-- Claim C3: `Transform::new_translate(3.0, 5.0, 6.0).eval_point` applied
to the point `(1.0, 1.0, 1.0)` returns exactly `(4.0, 6.0, 7.0)` (every
quantity involved is a small integer, exactly representable in `f32`, and
the arithmetic is exact, so the real-number evaluation is the `f32`
evaluation). -/
theorem C3_translate_eval_point :
    (Transform.new_translate 3.0 5.0 6.0).eval_point (Vector3.new_xyz 1.0 1.0 1.0) =
      Vector3.new_xyz 4.0 6.0 7.0 := by
  unfold Transform.eval_point Transform.new_translate Matrix4x4f.new
  norm_num [Vector3.new_xyz]

/-- The upper-left 3×3 blocks of two matrices agree entry-wise. -/
def Matrix4x4f.ulEq (a b : Matrix4x4f) : Prop :=
  a.m00 = b.m00 ∧ a.m01 = b.m01 ∧ a.m02 = b.m02 ∧
  a.m10 = b.m10 ∧ a.m11 = b.m11 ∧ a.m12 = b.m12 ∧
  a.m20 = b.m20 ∧ a.m21 = b.m21 ∧ a.m22 = b.m22

/-- Claim C6: `eval_vector` reads only the upper-left 3×3 block of the
matrix — two transforms agreeing on that block evaluate every vector
identically, whatever their fourth columns and rows hold — and in
particular every pure translation acts as the identity on vectors. -/
theorem C6_eval_vector_upper_block :
    (∀ (t t' : Transform) (v : Vector3f), Matrix4x4f.ulEq t.m t'.m →
        t.eval_vector v = t'.eval_vector v) ∧
    (∀ (x y z : Float) (v : Vector3f),
        (Transform.new_translate x y z).eval_vector v = v) := by
  constructor
  · intro t t' v h
    obtain ⟨h00, h01, h02, h10, h11, h12, h20, h21, h22⟩ := h
    unfold Transform.eval_vector
    dsimp only
    rw [h00, h01, h02, h10, h11, h12, h20, h21, h22]
  · intro x y z v
    unfold Transform.eval_vector Transform.new_translate Matrix4x4f.new
    refine Vector3.ext ?_ ?_ ?_ <;> dsimp [Vector3.new_xyz] <;> ring

/-- Witness for C6 at concrete inputs: the translations by `(7,8,9)` and
the scale by `(1,1,1)` share the identity as upper-left 3×3 block, so they
evaluate the vector `(1,2,3)` identically. -/
theorem C6_eval_vector_upper_block_witness :
    Matrix4x4f.ulEq (Transform.new_translate 7.0 8.0 9.0).m
      (Transform.new_scale 1.0 1.0 1.0).m ∧
    (Transform.new_translate 7.0 8.0 9.0).eval_vector (Vector3.new_xyz 1.0 2.0 3.0) =
      (Transform.new_scale 1.0 1.0 1.0).eval_vector (Vector3.new_xyz 1.0 2.0 3.0) :=
  ⟨by simp [Matrix4x4f.ulEq, Transform.new_translate, Transform.new_scale, Matrix4x4f.new],
   C6_eval_vector_upper_block.1 _ _ _
     (by simp [Matrix4x4f.ulEq, Transform.new_translate, Transform.new_scale, Matrix4x4f.new])⟩

/-- Column 0 of a matrix, read as the vector of its first three entries. -/
def Matrix4x4f.col0 (a : Matrix4x4f) : Vector3f := Vector3.new_xyz a.m00 a.m10 a.m20

/-- Column 1 of a matrix, read as the vector of its first three entries. -/
def Matrix4x4f.col1 (a : Matrix4x4f) : Vector3f := Vector3.new_xyz a.m01 a.m11 a.m21

/-- Column 2 of a matrix, read as the vector of its first three entries. -/
def Matrix4x4f.col2 (a : Matrix4x4f) : Vector3f := Vector3.new_xyz a.m02 a.m12 a.m22

/-- Column 3 of a matrix, read as the vector of its first three entries. -/
def Matrix4x4f.col3 (a : Matrix4x4f) : Vector3f := Vector3.new_xyz a.m03 a.m13 a.m23

/-- Claim C7: `new_look_at(pos, look, up)` builds its matrix with
`dir = (look - pos).norm()`, `right = (up.norm() × dir).norm()`,
`newup = dir × right`, placed as columns `right, newup, dir, pos`
(columns 0 through 3) over the bottom row `(0, 0, 0, 1)`. -/
theorem C7_look_at_columns (pos look up : Vector3f) :
    (Transform.new_look_at pos look up).m.col0 =
      (up.norm.cross ((look - pos).norm)).norm ∧
    (Transform.new_look_at pos look up).m.col1 =
      ((look - pos).norm).cross ((up.norm.cross ((look - pos).norm)).norm) ∧
    (Transform.new_look_at pos look up).m.col2 = (look - pos).norm ∧
    (Transform.new_look_at pos look up).m.col3 = pos ∧
    (Transform.new_look_at pos look up).m.m30 = 0.0 ∧
    (Transform.new_look_at pos look up).m.m31 = 0.0 ∧
    (Transform.new_look_at pos look up).m.m32 = 0.0 ∧
    (Transform.new_look_at pos look up).m.m33 = 1.0 :=
  ⟨rfl, rfl, rfl, rfl, rfl, rfl, rfl, rfl⟩

/-- The dot product of a matrix row `(r0, r1, r2, r3)` with the homogeneous
extension `[p, 1]` of a point, as the spec phrases it (`row·[p,1]`). -/
def rowDotHom (r0 r1 r2 r3 : Float) (p : Vector3f) : Float :=
  r0 * p.x + r1 * p.y + r2 * p.z + r3 * 1.0

/-- Follows the spec's words for `eval_point` (§4.3), not the source:
"computes `x' = row0·[p,1]`, similarly for y', z', and `w' = row3·[p,1]`;
if `w' != 1.0`, perspective-divides the result by `w'`" — i.e. the result
is `(x',y',z')` divided component-wise by `w'` exactly when `w' != 1.0`,
and `(x',y',z')` unchanged when `w' == 1.0`. -/
noncomputable def Transform.eval_point_spec (t : Transform) (p : Vector3f) : Vector3f :=
  let m := t.m
  let x1 := rowDotHom m.m00 m.m01 m.m02 m.m03 p
  let y1 := rowDotHom m.m10 m.m11 m.m12 m.m13 p
  let z1 := rowDotHom m.m20 m.m21 m.m22 m.m23 p
  let w1 := rowDotHom m.m30 m.m31 m.m32 m.m33 p
  if w1 = 1.0 then Vector3.new_xyz x1 y1 z1
  else Vector3.new_xyz (x1 / w1) (y1 / w1) (z1 / w1)

/-- Claim C2: for every transform `t` and point `p`, `eval_point` computes
the four homogeneous row products `x' = row0·[p,1]`, …, `w' = row3·[p,1]`
and returns `(x',y',z')` divided component-wise by `w'` exactly when
`w' != 1.0`, and unchanged when `w' == 1.0` — the source agrees with the
spec-side definition `eval_point_spec`. -/
theorem C2_eval_point_matches_spec (t : Transform) (p : Vector3f) :
    t.eval_point p = t.eval_point_spec p := by
  unfold Transform.eval_point Transform.eval_point_spec rowDotHom Vector3.div_assign
  dsimp only
  have h1 : (1.0 : Float) = 1 := by norm_num
  simp only [h1, mul_one]
  by_cases h : t.m.m30 * p.x + t.m.m31 * p.y + t.m.m32 * p.z + t.m.m33 = 1
  · rw [if_neg (by simpa using h), if_pos h]
  · rw [if_pos (by simpa using h), if_neg h]
    rfl

/-- Claim C4: for every angle `theta`, the matrix built by
`Transform::new_rotate_z(theta)` carries the constant `1.1` — not `1.0` —
at row 2, column 2, and consequently `eval_vector` maps the unit z vector
`(0,0,1)` to `(0,0,1.1)`, which differs from `(0,0,1)`. -/
theorem C4_rotate_z_entry_bug (theta : Float) :
    (Transform.new_rotate_z theta).m.m22 = 1.1 ∧
    (Transform.new_rotate_z theta).eval_vector (Vector3.new_xyz 0.0 0.0 1.0) =
      Vector3.new_xyz 0.0 0.0 1.1 ∧
    Vector3.new_xyz (0.0 : Float) 0.0 1.1 ≠ Vector3.new_xyz 0.0 0.0 1.0 := by
  refine ⟨rfl, ?_, ?_⟩
  · unfold Transform.eval_vector Transform.new_rotate_z Matrix4x4f.new
    refine Vector3.ext ?_ ?_ ?_ <;> dsimp [Vector3.new_xyz] <;> ring
  · intro h
    have hz := congrArg Vector3.z h
    dsimp [Vector3.new_xyz] at hz
    norm_num at hz

/-- The z-rotation by 90 degrees sends the point `(1,0,0)` exactly to
`(0,1,0)` in the real-number model: `90·(π/180) = π/2`, whose cosine is `0`
and sine is `1`, and the fourth row leaves `w = 1`. -/
theorem rotate_z_90_eval_point_eq :
    (Transform.new_rotate_z 90.0).eval_point (Vector3.new_xyz 1.0 0.0 0.0) =
      Vector3.new_xyz 0.0 1.0 0.0 := by
  have h : Float.to_radians 90.0 = Real.pi / 2 := by
    unfold Float.to_radians
    norm_num
    ring
  unfold Transform.eval_point Transform.new_rotate_z Matrix4x4f.new
  rw [h]
  norm_num [Vector3.new_xyz, Real.cos_pi_div_two, Real.sin_pi_div_two]

/-- Claim C5: `Transform::new_rotate_z(90.0).eval_point` applied to the
point `(1.0, 0.0, 0.0)` lands within any positive tolerance `eps` of
`(0.0, 1.0, 0.0)` — in the real-number model the image is exactly that
point, so every component-wise deviation is zero. -/
theorem C5_rotate_z_90_point (eps : Float) (heps : 0 < eps) :
    |((Transform.new_rotate_z 90.0).eval_point (Vector3.new_xyz 1.0 0.0 0.0)).x - 0.0| < eps ∧
    |((Transform.new_rotate_z 90.0).eval_point (Vector3.new_xyz 1.0 0.0 0.0)).y - 1.0| < eps ∧
    |((Transform.new_rotate_z 90.0).eval_point (Vector3.new_xyz 1.0 0.0 0.0)).z - 0.0| < eps := by
  rw [rotate_z_90_eval_point_eq]
  dsimp [Vector3.new_xyz]
  norm_num
  exact heps

/-- Witness for C5 at the concrete tolerance `1`. -/
theorem C5_rotate_z_90_point_witness :
    (0 : Float) < 1 ∧
    (|((Transform.new_rotate_z 90.0).eval_point (Vector3.new_xyz 1.0 0.0 0.0)).x - 0.0| < 1 ∧
     |((Transform.new_rotate_z 90.0).eval_point (Vector3.new_xyz 1.0 0.0 0.0)).y - 1.0| < 1 ∧
     |((Transform.new_rotate_z 90.0).eval_point (Vector3.new_xyz 1.0 0.0 0.0)).z - 0.0| < 1) :=
  ⟨one_pos, C5_rotate_z_90_point 1 one_pos⟩

/-- Multiplication of two finite scalars reduces to the exact product. -/
theorem FP.mul_fin (a b : ℝ) : FP.mul (FP.fin a) (FP.fin b) = FP.fin (a * b) := rfl

/-- Addition of two finite scalars reduces to the exact sum. -/
theorem FP.add_fin (a b : ℝ) : FP.add (FP.fin a) (FP.fin b) = FP.fin (a + b) := rfl

/-- Square root of a finite scalar reduces to a guard on the sign. -/
theorem FP.sqrt_fin (a : ℝ) :
    FP.sqrt (FP.fin a) = if a < 0 then FP.nan else FP.fin (Real.sqrt a) := rfl

/-- Division of two finite scalars reduces to the IEEE-754 case split. -/
theorem FP.div_fin (a b : ℝ) :
    FP.div (FP.fin a) (FP.fin b) =
      if b = 0 then
        if a = 0 then FP.nan else if 0 < a then FP.pinf else FP.ninf
      else FP.fin (a / b) := rfl

/-- IEEE equality of two finite scalars is equality of their values. -/
theorem FP.ieeeEq_fin (a b : ℝ) : FP.ieeeEq (FP.fin a) (FP.fin b) ↔ a = b :=
  Iff.rfl

/-- Claim C1 concerns `Vector3f::new_xyz(0.0, 0.0, 0.0).norm()`.  Under the
IEEE-754 interpretation the code does NOT return the zero vector: the
`len == 0.0` guard overwrites the vector with zeros but does not return, so
each component is then divided by the zero length, and `0.0 / 0.0` is
`NaN`.  All three components of the result are `NaN`, contradicting the
claimed well-defined zero vector.  (This theorem evaluates the code at the
failing input; the claim itself reflects the spec's intent, which the
source misses by one early `return`.) -/
theorem C1_norm_zero_vector_is_nan :
    (Vector3.new_xyz (FP.fin 0.0) (FP.fin 0.0) (FP.fin 0.0)).normFP =
      Vector3.new_xyz FP.nan FP.nan FP.nan ∧
    FP.isNaN ((Vector3.new_xyz (FP.fin 0.0) (FP.fin 0.0) (FP.fin 0.0)).normFP).x := by
  have hlen :
      (Vector3.mk (FP.fin 0) (FP.fin 0) (FP.fin 0)).lenFP = FP.fin 0 := by
    norm_num [Vector3.lenFP, Vector3.len_squaredFP,
      FP.mul_fin, FP.add_fin, FP.sqrt_fin]
  have hmain :
      (Vector3.new_xyz (FP.fin 0.0) (FP.fin 0.0) (FP.fin 0.0)).normFP =
        Vector3.new_xyz FP.nan FP.nan FP.nan := by
    unfold Vector3.normFP Vector3.norm_inFP
    norm_num [hlen, FP.ieeeEq_fin, Vector3.new, Vector3.new_xyz, FP.div_fin]
  exact ⟨hmain, by rw [hmain]; trivial⟩

/-- Claim C9: normalization never panics or aborts — in the panic-aware
embedding, `norm_in` returns `Except.ok` of the pure result for every input
vector (the all-zero vector included): `f32` division follows IEEE-754 and
produces a value for every operand pair, so no execution path can reach a
panic. -/
theorem C9_norm_in_never_panics (v : Vector3 FP) :
    v.norm_in_runFP = Except.ok v.norm_inFP := by
  unfold Vector3.norm_in_runFP Vector3.norm_inFP FP.div_run
  rfl

end Pathtrace
